import Mathlib

/-
Verification of the three pre-commit hook wrapper scripts:
  src/precommit/checks/general/prevent_nul_file.py
  src/precommit/checks/general/validate_agent_pointers.py
  src/precommit/checks/general/organize_scattered_docs.py

Each hook is embedded as a pure function from an environment (the ambient
world state the script observes: the staged-file list returned by
`git diff --cached --name-only`, existence of collaborator scripts, the
exit code / captured output the spawned subprocess would produce, and
whether best-effort filesystem operations succeed) to a result record
holding the exit code, the ordered list of (channel, text) writes, the
ordered list of external effects attempted, and (for the nul-file guard,
the only hook that mutates anything) the post-run staged list and disk
state.
-/

namespace Hooks

/-- Python `str.strip()` with no argument: remove leading and trailing
whitespace.  Defined by structural recursion over the character list so
that concrete runs evaluate inside the kernel. -/
def pyStrip (s : String) : String :=
  String.mk (((s.data.dropWhile Char.isWhitespace).reverse.dropWhile Char.isWhitespace).reverse)

/-- Python `str.startswith(p)` / an anchored regex literal match: `p` is a
prefix of `s`.  Structural recursion over character lists. -/
def strStartsWith (s p : String) : Bool :=
  p.data.isPrefixOf s.data

/-- Output channel of a write performed by a hook (sys.stdout / sys.stderr). -/
inductive Chan where
  | stdout
  | stderr
deriving DecidableEq, Repr

/-- External effects a hook can attempt, in the order the scripts issue
them.  `gitDiffCached` is the read-only staged-file query,
`checkGeneratorExists` the `generator.exists()` filesystem test,
`spawnGeneratorCheck` the subprocess `python generate_pointers.py --check`,
`spawnOrganizer b` the subprocess `python organize_docs.py` with
`--auto-move` when `b` is true and `--dry-run` otherwise,
`checkNulOnDisk` the `nul_path.exists() and nul_path.is_file()` test,
`unlinkNul` the attempted `nul_path.unlink(...)`, and
`gitResetHead p` the `git reset HEAD p` unstage command. -/
inductive Effect where
  | gitDiffCached
  | checkGeneratorExists
  | spawnGeneratorCheck
  | spawnOrganizer (autoMove : Bool)
  | checkNulOnDisk
  | unlinkNul
  | gitResetHead (path : String)
deriving DecidableEq, Repr

/-- Whether an effect mutates the staging area or the filesystem.
`gitResetHead` and `unlinkNul` plainly mutate; `spawnOrganizer true`
runs the organizer in `--auto-move` mode, which performs moves by the
collaborator contract.  The staged-file query, existence tests,
`--dry-run` and `--check` subprocess runs are report-only reads. -/
def Effect.mutating : Effect → Bool
  | .gitResetHead _ => true
  | .unlinkNul => true
  | .spawnOrganizer b => b
  | _ => false

/-- Result of one hook invocation: Python exit code, the ordered writes to
stdout/stderr, and the ordered external effects attempted. -/
structure RunResult where
  exitCode : Int
  output : List (Chan × String)
  effects : List Effect
deriving DecidableEq, Repr

/-- Python `[line.strip() for line in out.splitlines() if line.strip()]`:
the staged path list derived from the raw output lines of
`git diff --cached --name-only`. -/
def stagedOf (lines : List String) : List String :=
  (lines.map pyStrip).filter (fun l => !(l == ""))

/- ===== validate_agent_pointers.py ===== -/

/-- The compiled regex `RELEVANT_PATTERN`, used via `re.match` (anchored at
the start only): a staged path is relevant when it starts with one of the
five literal alternatives. -/
def relevantMatch (p : String) : Bool :=
  strStartsWith p ".agent/" || strStartsWith p "CLAUDE.md" || strStartsWith p "AGENTS.md" ||
  strStartsWith p ".github/copilot-instructions.md" || strStartsWith p ".windsurf/rules.md"

/-- The gate as the claim C3 words it: the path lies under `.agent/` or is
EQUAL to one of the four fixed filenames.  Written from the claim text,
for comparison with `relevantMatch` taken from the source. -/
def specRelevant (p : String) : Bool :=
  strStartsWith p ".agent/" || p == "CLAUDE.md" || p == "AGENTS.md" ||
  p == ".github/copilot-instructions.md" || p == ".windsurf/rules.md"

/-- Environment observed by the agent-pointer validator: raw staged-list
lines, whether `.agent/scripts/generate_pointers.py` exists, the exit
code and captured stdout/stderr the generator subprocess would produce in
`--check` mode, and the strings `Path(sys.executable).name` and
`str(generator)` used in the printed remediation command. -/
structure PointerEnv where
  stagedLines : List String
  generatorExists : Bool
  genExit : Int
  genStdout : String
  genStderr : String
  pythonName : String
  generatorPath : String
deriving DecidableEq, Repr

/-- `main()` of validate_agent_pointers.py. -/
def validateAgentPointers (env : PointerEnv) : RunResult :=
  let staged := stagedOf env.stagedLines
  if staged.any relevantMatch then
    if !env.generatorExists then
      { exitCode := 1
      , output :=
          [ (Chan.stdout, "Detected changes to agent files or pointer files\n")
          , (Chan.stderr, "Error: .agent/scripts/generate_pointers.py not found.\n") ]
      , effects := [Effect.gitDiffCached, Effect.checkGeneratorExists] }
    else if env.genExit = 0 then
      { exitCode := 0
      , output :=
          [ (Chan.stdout, "Detected changes to agent files or pointer files\n")
          , (Chan.stdout, "Agent pointer files are up to date\n") ]
      , effects := [Effect.gitDiffCached, Effect.checkGeneratorExists, Effect.spawnGeneratorCheck] }
    else
      { exitCode := 1
      , output :=
          [ (Chan.stdout, "Detected changes to agent files or pointer files\n")
          , (Chan.stdout, "\nAgent pointer files are out of sync!\n\n")
          , (Chan.stdout, "To fix, run:\n")
          , (Chan.stdout, "  " ++ env.pythonName ++ " " ++ env.generatorPath ++ "\n")
          , (Chan.stdout, "  git add CLAUDE.md AGENTS.md .github/copilot-instructions.md .windsurf/rules.md\n\n")
          , (Chan.stdout, env.genStdout)
          , (Chan.stderr, env.genStderr) ]
      , effects := [Effect.gitDiffCached, Effect.checkGeneratorExists, Effect.spawnGeneratorCheck] }
  else
    { exitCode := 0
    , output := [(Chan.stdout, "No agent files modified, skipping validation\n")]
    , effects := [Effect.gitDiffCached] }

/- ===== organize_scattered_docs.py ===== -/

/-- Environment observed by the scattered-docs hook: the `--auto-fix` CLI
flag, whether the organizer script `ORGANIZE_SCRIPT` exists on disk (the
script itself never reads this fact, which is exactly what claim C1 is
about), and the outcome the spawned organizer subprocess produces in
each mode (`--auto-move` pass-through, `--dry-run` captured). -/
structure DocsEnv where
  autoFix : Bool
  organizerExists : Bool
  autoMoveExit : Int
  dryRunExit : Int
  dryRunStdout : String
  dryRunStderr : String
deriving DecidableEq, Repr

/-- `main()` of organize_scattered_docs.py.  Note: the subprocess is
spawned unconditionally; `env.organizerExists` is never consulted. -/
def organizeScatteredDocs (env : DocsEnv) : RunResult :=
  if env.autoFix then
    { exitCode := env.autoMoveExit
    , output :=
        [ (Chan.stdout, "Auto-organizing scattered documentation files...\n")
        , (Chan.stdout,
            if env.autoMoveExit = 0 then
              "SUCCESS: Documentation organization completed successfully\n"
            else
              "ERROR: Documentation organization failed\n") ]
    , effects := [Effect.spawnOrganizer true] }
  else if env.dryRunExit = 0 then
    { exitCode := 0
    , output := [(Chan.stdout, "SUCCESS: All documentation files are properly organized\n")]
    , effects := [Effect.spawnOrganizer false] }
  else
    { exitCode := 1
    , output :=
        [ (Chan.stdout, "WARNING: Scattered documentation files detected!\n")
        , (Chan.stdout, "\nThe following files should be organized:\n")
        , (Chan.stdout, env.dryRunStdout ++ "\n")
        , (Chan.stdout, "\nTo automatically organize these files, run:\n")
        , (Chan.stdout, "  python git-hooks/checks/python/organize_docs.py --auto-move\n")
        , (Chan.stdout, "\nOr add --auto-fix to this hook to organize automatically on commit.\n") ]
    , effects := [Effect.spawnOrganizer false] }

/- ===== prevent_nul_file.py ===== -/

/-- Environment observed by the nul-file guard: raw staged-list lines,
whether a regular file named `nul` exists in the working directory
(`nul_path.exists() and nul_path.is_file()`), whether the attempted
`unlink` raises an exception (permission denied etc.), and whether the
`git reset HEAD nul` unstage command succeeds. -/
structure NulEnv where
  stagedLines : List String
  diskNulIsFile : Bool
  deleteRaises : Bool
  unstageSucceeds : Bool
deriving DecidableEq, Repr

/-- Result of a nul-file guard run; unlike the other two hooks it mutates
state, so the post-run staged-list lines and disk state are recorded. -/
structure NulResult where
  exitCode : Int
  output : List (Chan × String)
  effects : List Effect
  stagedLinesAfter : List String
  diskNulAfter : Bool
deriving DecidableEq, Repr

/-- `main()` of prevent_nul_file.py. -/
def preventNulFile (env : NulEnv) : NulResult :=
  let staged := stagedOf env.stagedLines
  if staged.contains "nul" then
    { exitCode := 1
    , output :=
        [ (Chan.stdout, "\nERROR: Attempting to commit Windows \x27nul\x27 file\n\n")
        , (Chan.stdout, "The file \x27nul\x27 is created by Windows command redirections like:\n")
        , (Chan.stdout, "  dir /s /b *.json 2>nul\n\n")
        , (Chan.stdout, "Solutions:\n")
        , (Chan.stdout, "  1. Use PowerShell: Get-ChildItem -Recurse -Filter *.json\n")
        , (Chan.stdout, "  2. Use bash/Git Bash: find . -name \x27*.json\x27 2>/dev/null\n")
        , (Chan.stdout, "  3. Don\x27t redirect stderr: dir /s /b *.json\n\n")
        , (Chan.stdout, "Auto-cleanup: Removing \x27nul\x27 file and unstaging...\n")
        , (Chan.stdout, "Fixed! Please commit again.\n") ]
    , effects :=
        [Effect.gitDiffCached, Effect.checkNulOnDisk] ++
        (if env.diskNulIsFile then [Effect.unlinkNul] else []) ++
        [Effect.gitResetHead "nul"]
    , stagedLinesAfter :=
        if env.unstageSucceeds then
          env.stagedLines.filter (fun l => !(pyStrip l == "nul"))
        else
          env.stagedLines
    , diskNulAfter := env.diskNulIsFile && env.deleteRaises }
  else if env.diskNulIsFile then
    { exitCode := 0
    , output :=
        [ (Chan.stdout, "\nWARNING: Found \x27nul\x27 file in working directory\n")
        , (Chan.stdout, "Auto-cleanup: Removing it...\n")
        , (Chan.stdout,
            if env.deleteRaises then
              "Could not remove \x27nul\x27 file; please remove manually.\n"
            else
              "Cleaned up.\n") ]
    , effects := [Effect.gitDiffCached, Effect.checkNulOnDisk, Effect.unlinkNul]
    , stagedLinesAfter := env.stagedLines
    , diskNulAfter := env.deleteRaises }
  else
    { exitCode := 0
    , output := []
    , effects := [Effect.gitDiffCached, Effect.checkNulOnDisk]
    , stagedLinesAfter := env.stagedLines
    , diskNulAfter := false }

/-- The environment a second, immediately following run of the nul-file
guard observes, when nothing else changes state between the two runs: the
staged lines and disk state left behind by the first run. -/
def nulSecondEnv (env : NulEnv) : NulEnv :=
  let r := preventNulFile env
  { env with stagedLines := r.stagedLinesAfter, diskNulIsFile := r.diskNulAfter }

/- ===== Claims about prevent_nul_file.py ===== -/

/-- C5: for every staged-file set containing the literal path `nul`, and
with deletion and unstage permissions available (the attempted unlink does
not raise and the `git reset HEAD nul` command succeeds), the guard exits
1, and afterwards `nul` is absent from both the staging area and the
working directory. -/
theorem c5_nul_staged_forces_retry_and_cleanup (env : NulEnv)
    (hstaged : (stagedOf env.stagedLines).contains "nul" = true)
    (hdel : env.deleteRaises = false) (hunst : env.unstageSucceeds = true) :
    (preventNulFile env).exitCode = 1 ∧
    (stagedOf (preventNulFile env).stagedLinesAfter).contains "nul" = false ∧
    (preventNulFile env).diskNulAfter = false := by
  have hmem : "nul" ∈ stagedOf env.stagedLines := by
    simpa [List.elem_iff] using hstaged
  have hex : ∃ a ∈ env.stagedLines, pyStrip a = "nul" := by
    simpa [stagedOf, List.mem_filter, List.mem_map] using hmem
  refine ⟨by simp [preventNulFile, hmem], ?_, by simp [preventNulFile, hmem, hdel]⟩
  simp [preventNulFile, hmem, hex, hunst, stagedOf, List.elem_iff, List.mem_filter, List.mem_map]

/-- Witness for C5 at the concrete state where `git diff --cached
--name-only` reports exactly the line `nul`, the file exists on disk, and
both remediation operations succeed. -/
theorem c5_witness :
    (preventNulFile ⟨["nul"], true, false, true⟩).exitCode = 1 ∧
    (stagedOf (preventNulFile ⟨["nul"], true, false, true⟩).stagedLinesAfter).contains "nul" = false ∧
    (preventNulFile ⟨["nul"], true, false, true⟩).diskNulAfter = false :=
  c5_nul_staged_forces_retry_and_cleanup ⟨["nul"], true, false, true⟩ (by decide) rfl rfl

/-- C6: when `nul` is staged, both remediation actions are attempted
independently of each other, for every combination of success and
failure of the two: the unlink is attempted whenever the file is present
on disk (even if it will raise, and even if the unstage will fail), the
`git reset HEAD nul` unstage is attempted unconditionally (even if the
unlink raised), the hook is a total function (no exception escapes: the
raised unlink error is swallowed and a failed git command only yields a
captured non-zero return code), and the exit code is 1 regardless of
either outcome. -/
theorem c6_remediation_best_effort (env : NulEnv)
    (hstaged : (stagedOf env.stagedLines).contains "nul" = true) :
    (preventNulFile env).exitCode = 1 ∧
    (env.diskNulIsFile = true → Effect.unlinkNul ∈ (preventNulFile env).effects) ∧
    Effect.gitResetHead "nul" ∈ (preventNulFile env).effects := by
  have hmem : "nul" ∈ stagedOf env.stagedLines := by
    simpa [List.elem_iff] using hstaged
  refine ⟨by simp [preventNulFile, hmem], ?_, by simp [preventNulFile, hmem]⟩
  intro h
  simp [preventNulFile, hmem, h]

/-- Witness for C6 at a state where both remediations fail: the unlink
raises and the unstage command fails, yet the guard still exits 1 having
attempted both. -/
theorem c6_witness :
    (preventNulFile ⟨["nul"], true, true, false⟩).exitCode = 1 ∧
    ((⟨["nul"], true, true, false⟩ : NulEnv).diskNulIsFile = true →
      Effect.unlinkNul ∈ (preventNulFile ⟨["nul"], true, true, false⟩).effects) ∧
    Effect.gitResetHead "nul" ∈ (preventNulFile ⟨["nul"], true, true, false⟩).effects :=
  c6_remediation_best_effort ⟨["nul"], true, true, false⟩ (by decide)

/-- C9: whenever the `nul` file exists on disk but the staged set does not
contain the path `nul`, the guard exits 0, attempts the removal, prints
the warning, removes the file when the unlink does not raise, and treats
a raising unlink as non-fatal (exit code still 0, with a manual-removal
message). -/
theorem c9_disk_only_nul_cleanup (env : NulEnv)
    (hnot : (stagedOf env.stagedLines).contains "nul" = false)
    (hdisk : env.diskNulIsFile = true) :
    (preventNulFile env).exitCode = 0 ∧
    Effect.unlinkNul ∈ (preventNulFile env).effects ∧
    (Chan.stdout, "\nWARNING: Found \x27nul\x27 file in working directory\n") ∈
      (preventNulFile env).output ∧
    (env.deleteRaises = false → (preventNulFile env).diskNulAfter = false) ∧
    (env.deleteRaises = true →
      (preventNulFile env).diskNulAfter = true ∧
      (Chan.stdout, "Could not remove \x27nul\x27 file; please remove manually.\n") ∈
        (preventNulFile env).output) := by
  have hmem : "nul" ∉ stagedOf env.stagedLines := by
    simpa [List.elem_iff] using hnot
  refine ⟨by simp [preventNulFile, hmem, hdisk], by simp [preventNulFile, hmem, hdisk],
    by simp [preventNulFile, hmem, hdisk], ?_, ?_⟩
  all_goals intro h
  all_goals simp [preventNulFile, hmem, hdisk, h]

/-- Witness for C9 at the concrete state where `src/a.py` is staged, the
`nul` file exists on disk, and the unlink succeeds. -/
theorem c9_witness :
    (preventNulFile ⟨["src/a.py"], true, false, true⟩).exitCode = 0 ∧
    Effect.unlinkNul ∈ (preventNulFile ⟨["src/a.py"], true, false, true⟩).effects ∧
    (Chan.stdout, "\nWARNING: Found \x27nul\x27 file in working directory\n") ∈
      (preventNulFile ⟨["src/a.py"], true, false, true⟩).output ∧
    ((⟨["src/a.py"], true, false, true⟩ : NulEnv).deleteRaises = false →
      (preventNulFile ⟨["src/a.py"], true, false, true⟩).diskNulAfter = false) ∧
    ((⟨["src/a.py"], true, false, true⟩ : NulEnv).deleteRaises = true →
      (preventNulFile ⟨["src/a.py"], true, false, true⟩).diskNulAfter = true ∧
      (Chan.stdout, "Could not remove \x27nul\x27 file; please remove manually.\n") ∈
        (preventNulFile ⟨["src/a.py"], true, false, true⟩).output) :=
  c9_disk_only_nul_cleanup ⟨["src/a.py"], true, false, true⟩ (by decide) rfl

/-- C7 counterexample: at the concrete state where exactly the line `nul`
is staged, the file exists on disk, and both remediation operations
succeed, the first run of the guard exits 1 while an immediately
following second run (observing the staged list and disk state the first
run left behind, nothing else having changed) exits 0 — so the exit code
is not the same both times, refuting the claimed idempotence. -/
theorem c7_counterexample :
    (preventNulFile ⟨["nul"], true, false, true⟩).exitCode = 1 ∧
    (preventNulFile (nulSecondEnv ⟨["nul"], true, false, true⟩)).exitCode = 0 := by
  decide

/-- C7 amended: the agent-pointer validator and the scattered-docs hook in
warn mode issue only read-only effects (so a second run observes the same
state and, the hooks being deterministic functions of that state, yields
the same exit code); the nul-file guard yields the same exit code on a
second run except in the one case where the first run unstaged a staged
`nul` file, in which case the first run exits 1 and the second exits 0.
(In `--auto-fix` mode the scattered-docs hook delegates a mutating
operation to the organizer, whose rerun behaviour is out of scope.) -/
theorem c7_amended_reruns :
    (∀ envP : PointerEnv,
      ((validateAgentPointers envP).effects.all fun e => !e.mutating) = true) ∧
    (∀ envD : DocsEnv, envD.autoFix = false →
      ((organizeScatteredDocs envD).effects.all fun e => !e.mutating) = true) ∧
    (∀ env : NulEnv,
      (preventNulFile (nulSecondEnv env)).exitCode = (preventNulFile env).exitCode ∨
      ("nul" ∈ stagedOf env.stagedLines ∧ env.unstageSucceeds = true ∧
        (preventNulFile env).exitCode = 1 ∧
        (preventNulFile (nulSecondEnv env)).exitCode = 0)) := by
  refine ⟨?_, ?_, ?_⟩
  · intro envP
    simp only [validateAgentPointers]
    split
    · split
      · simp [Effect.mutating]
      · split <;> simp [Effect.mutating]
    · simp [Effect.mutating]
  · intro envD h
    simp only [organizeScatteredDocs]
    rw [if_neg (by simp [h])]
    split <;> simp [Effect.mutating]
  · intro env
    by_cases hmem : "nul" ∈ stagedOf env.stagedLines
    · cases hunst : env.unstageSucceeds
      · left
        simp [preventNulFile, nulSecondEnv, hmem, hunst]
      · right
        have hmem2 :
            "nul" ∉ stagedOf (env.stagedLines.filter (fun l => !(pyStrip l == "nul"))) := by
          simp [stagedOf, List.mem_filter, List.mem_map]
        refine ⟨hmem, rfl, by simp [preventNulFile, hmem], ?_⟩
        cases hd : env.diskNulIsFile && env.deleteRaises <;>
          simp [preventNulFile, nulSecondEnv, hmem, hmem2, hunst, hd]
    · left
      cases hd : env.diskNulIsFile <;> cases hr : env.deleteRaises <;>
        simp [preventNulFile, nulSecondEnv, hmem, hd, hr]

/-- Witness for the amended C7, instantiating each conjunct at a concrete
environment: a validator run on a staged `AGENTS.md`, a warn-mode docs
hook run, and a guard run with nothing relevant staged. -/
theorem c7_amended_witness :
    ((validateAgentPointers ⟨["AGENTS.md"], true, 0, "", "", "python3", "gp"⟩).effects.all
      fun e => !e.mutating) = true ∧
    ((organizeScatteredDocs ⟨false, true, 0, 0, "", ""⟩).effects.all
      fun e => !e.mutating) = true ∧
    ((preventNulFile (nulSecondEnv ⟨["docs/readme.md"], false, false, true⟩)).exitCode =
        (preventNulFile ⟨["docs/readme.md"], false, false, true⟩).exitCode ∨
      ("nul" ∈ stagedOf (["docs/readme.md"] : List String) ∧
        (⟨["docs/readme.md"], false, false, true⟩ : NulEnv).unstageSucceeds = true ∧
        (preventNulFile ⟨["docs/readme.md"], false, false, true⟩).exitCode = 1 ∧
        (preventNulFile (nulSecondEnv ⟨["docs/readme.md"], false, false, true⟩)).exitCode = 0)) :=
  ⟨c7_amended_reruns.1 _, c7_amended_reruns.2.1 _ rfl, c7_amended_reruns.2.2 _⟩

/- ===== Claims about validate_agent_pointers.py ===== -/

/-- C3 counterexample: with staged set `{"AGENTS.mdX"}` no staged path
lies under `.agent/` or is equal to one of the four fixed filenames
(`specRelevant`, the gate as the claim words it, matches nothing), yet
the validator does invoke the generator and does not print the skipped
message: the compiled pattern is an anchored prefix match, not an
equality test. -/
theorem c3_counterexample :
    ((stagedOf ["AGENTS.mdX"]).any specRelevant) = false ∧
    Effect.spawnGeneratorCheck ∈
      (validateAgentPointers
        ⟨["AGENTS.mdX"], true, 0, "", "", "python3", ".agent/scripts/generate_pointers.py"⟩).effects ∧
    (Chan.stdout, "No agent files modified, skipping validation\n") ∉
      (validateAgentPointers
        ⟨["AGENTS.mdX"], true, 0, "", "", "python3", ".agent/scripts/generate_pointers.py"⟩).output := by
  decide

/-- C3 amended: the validator invokes its subordinate check (when the
generator script exists) if and only if at least one staged path STARTS
WITH `.agent/` or with one of the four fixed filenames — the gate is a
prefix match, not an equality test on the filenames; for every staged
set containing no such path it exits 0 immediately, prints the skipped
message, and performs nothing beyond the staged-file query. -/
theorem c3_amended_gate (env : PointerEnv) :
    ((stagedOf env.stagedLines).any relevantMatch = false →
      (validateAgentPointers env).exitCode = 0 ∧
      (validateAgentPointers env).output =
        [(Chan.stdout, "No agent files modified, skipping validation\n")] ∧
      (validateAgentPointers env).effects = [Effect.gitDiffCached]) ∧
    (env.generatorExists = true →
      (Effect.spawnGeneratorCheck ∈ (validateAgentPointers env).effects ↔
        (stagedOf env.stagedLines).any relevantMatch = true)) := by
  constructor
  · intro h
    simp [validateAgentPointers, h]
  · intro hg
    by_cases hm : (stagedOf env.stagedLines).any relevantMatch = true
    · by_cases hz : env.genExit = 0 <;> simp [validateAgentPointers, hm, hg, hz]
    · simp only [Bool.not_eq_true] at hm
      simp [validateAgentPointers, hm]

/-- Witness for the amended C3: the no-match conjunct at staged set
`{"src/main.py"}` and the iff conjunct at staged set `{"AGENTS.md"}`. -/
theorem c3_amended_witness :
    ((validateAgentPointers ⟨["src/main.py"], true, 0, "", "", "python3", "gp"⟩).exitCode = 0 ∧
      (validateAgentPointers ⟨["src/main.py"], true, 0, "", "", "python3", "gp"⟩).output =
        [(Chan.stdout, "No agent files modified, skipping validation\n")] ∧
      (validateAgentPointers ⟨["src/main.py"], true, 0, "", "", "python3", "gp"⟩).effects =
        [Effect.gitDiffCached]) ∧
    (Effect.spawnGeneratorCheck ∈
        (validateAgentPointers ⟨["AGENTS.md"], true, 0, "", "", "python3", "gp"⟩).effects ↔
      (stagedOf ["AGENTS.md"]).any relevantMatch = true) :=
  ⟨(c3_amended_gate _).1 (by decide), (c3_amended_gate _).2 rfl⟩

/-- C8: when some staged path matches the relevance pattern and the
generator script exists, the validator spawns the generator with
`--check` (in capture mode — `spawnGeneratorCheck` is the captured
`run([sys.executable, generator, "--check"])` call); on generator exit 0
it prints the up-to-date confirmation and exits 0; on non-zero generator
exit it exits 1 and echoes the captured stdout (on stdout) and stderr
(on stderr) together with the literal regenerate command and the literal
re-stage command. -/
theorem c8_generator_check_outcomes (env : PointerEnv)
    (hmatch : (stagedOf env.stagedLines).any relevantMatch = true)
    (hgen : env.generatorExists = true) :
    Effect.spawnGeneratorCheck ∈ (validateAgentPointers env).effects ∧
    (env.genExit = 0 →
      (validateAgentPointers env).exitCode = 0 ∧
      (Chan.stdout, "Agent pointer files are up to date\n") ∈ (validateAgentPointers env).output) ∧
    (env.genExit ≠ 0 →
      (validateAgentPointers env).exitCode = 1 ∧
      (Chan.stdout, env.genStdout) ∈ (validateAgentPointers env).output ∧
      (Chan.stderr, env.genStderr) ∈ (validateAgentPointers env).output ∧
      (Chan.stdout, "  " ++ env.pythonName ++ " " ++ env.generatorPath ++ "\n") ∈
        (validateAgentPointers env).output ∧
      (Chan.stdout, "  git add CLAUDE.md AGENTS.md .github/copilot-instructions.md .windsurf/rules.md\n\n") ∈
        (validateAgentPointers env).output) := by
  refine ⟨?_, ?_, ?_⟩
  · by_cases hz : env.genExit = 0 <;> simp [validateAgentPointers, hmatch, hgen, hz]
  · intro hz
    simp [validateAgentPointers, hmatch, hgen, hz]
  · intro hz
    simp [validateAgentPointers, hmatch, hgen, hz]

/-- Witness for C8 at a concrete environment where `AGENTS.md` is staged,
the generator exists and its check exits 1 with captured output. -/
theorem c8_witness :
    Effect.spawnGeneratorCheck ∈
      (validateAgentPointers
        ⟨["AGENTS.md"], true, 1, "stale pointer\n", "gen warning\n", "python3",
          ".agent/scripts/generate_pointers.py"⟩).effects ∧
    ((validateAgentPointers
        ⟨["AGENTS.md"], true, 1, "stale pointer\n", "gen warning\n", "python3",
          ".agent/scripts/generate_pointers.py"⟩).exitCode = 1 ∧
      (Chan.stdout, "stale pointer\n") ∈
        (validateAgentPointers
          ⟨["AGENTS.md"], true, 1, "stale pointer\n", "gen warning\n", "python3",
            ".agent/scripts/generate_pointers.py"⟩).output ∧
      (Chan.stderr, "gen warning\n") ∈
        (validateAgentPointers
          ⟨["AGENTS.md"], true, 1, "stale pointer\n", "gen warning\n", "python3",
            ".agent/scripts/generate_pointers.py"⟩).output ∧
      (Chan.stdout, "  " ++ "python3" ++ " " ++ ".agent/scripts/generate_pointers.py" ++ "\n") ∈
        (validateAgentPointers
          ⟨["AGENTS.md"], true, 1, "stale pointer\n", "gen warning\n", "python3",
            ".agent/scripts/generate_pointers.py"⟩).output ∧
      (Chan.stdout, "  git add CLAUDE.md AGENTS.md .github/copilot-instructions.md .windsurf/rules.md\n\n") ∈
        (validateAgentPointers
          ⟨["AGENTS.md"], true, 1, "stale pointer\n", "gen warning\n", "python3",
            ".agent/scripts/generate_pointers.py"⟩).output) :=
  ⟨(c8_generator_check_outcomes _ (by decide) rfl).1,
   (c8_generator_check_outcomes _ (by decide) rfl).2.2 (by decide)⟩

/-- C10: on every execution path the agent-pointer validator issues only
read-only effects — each effect it performs is non-mutating, and each is
one of the staged-file query, the generator existence test, or the
generator `--check` spawn; its result carries only printed text and an
exit code, and no post-state fields exist to mutate. -/
theorem c10_validator_frame (env : PointerEnv) :
    ((validateAgentPointers env).effects.all fun e => !e.mutating) = true ∧
    ((validateAgentPointers env).effects.all fun e =>
      [Effect.gitDiffCached, Effect.checkGeneratorExists, Effect.spawnGeneratorCheck].contains e) =
      true := by
  constructor <;>
    (simp only [validateAgentPointers]
     split
     · split
       · simp [Effect.mutating]
       · split <;> simp [Effect.mutating]
     · simp [Effect.mutating])

/- ===== Claims about organize_scattered_docs.py (and cross-hook claims) ===== -/

/-- C1 counterexample: at the concrete state where the organizer script
`git-hooks/checks/python/organize_docs.py` is missing and the hook runs
with `--auto-fix` (the spawned interpreter failing with exit code 2, as
CPython does on a missing script file), the scattered-docs hook still
attempts the subprocess invocation and exits 2 — it neither detects the
missing collaborator before invocation nor fails with exit code 1 and a
diagnostic naming the expected path. -/
theorem c1_counterexample :
    (⟨true, false, 2, 0, "", ""⟩ : DocsEnv).organizerExists = false ∧
    Effect.spawnOrganizer true ∈
      (organizeScatteredDocs ⟨true, false, 2, 0, "", ""⟩).effects ∧
    (organizeScatteredDocs ⟨true, false, 2, 0, "", ""⟩).exitCode = 2 := by
  decide

/-- C1 amended: only the agent-pointer validator detects a missing
collaborator before invocation — when its gate matches and the generator
script is absent it exits 1 with a diagnostic naming the expected path on
stderr and never spawns the generator; the scattered-docs hook performs
no such existence check and spawns the organizer subprocess
unconditionally in both modes. -/
theorem c1_amended_missing_script :
    (∀ envP : PointerEnv, (stagedOf envP.stagedLines).any relevantMatch = true →
      envP.generatorExists = false →
        (validateAgentPointers envP).exitCode = 1 ∧
        Effect.spawnGeneratorCheck ∉ (validateAgentPointers envP).effects ∧
        (Chan.stderr, "Error: .agent/scripts/generate_pointers.py not found.\n") ∈
          (validateAgentPointers envP).output) ∧
    (∀ envD : DocsEnv,
      Effect.spawnOrganizer envD.autoFix ∈ (organizeScatteredDocs envD).effects) := by
  constructor
  · intro envP hm hg
    simp [validateAgentPointers, hm, hg]
  · intro envD
    cases ha : envD.autoFix
    · by_cases hz : envD.dryRunExit = 0 <;> simp [organizeScatteredDocs, ha, hz]
    · simp [organizeScatteredDocs, ha]

/-- Witness for the amended C1: the validator at a staged `CLAUDE.md`
with the generator missing, and the docs hook in warn mode. -/
theorem c1_amended_witness :
    ((validateAgentPointers ⟨["CLAUDE.md"], false, 0, "", "", "python3", "gp"⟩).exitCode = 1 ∧
      Effect.spawnGeneratorCheck ∉
        (validateAgentPointers ⟨["CLAUDE.md"], false, 0, "", "", "python3", "gp"⟩).effects ∧
      (Chan.stderr, "Error: .agent/scripts/generate_pointers.py not found.\n") ∈
        (validateAgentPointers ⟨["CLAUDE.md"], false, 0, "", "", "python3", "gp"⟩).output) ∧
    Effect.spawnOrganizer (⟨false, true, 0, 1, "", ""⟩ : DocsEnv).autoFix ∈
      (organizeScatteredDocs ⟨false, true, 0, 1, "", ""⟩).effects :=
  ⟨c1_amended_missing_script.1 _ (by decide) rfl, c1_amended_missing_script.2 _⟩

/-- C2 counterexample: in warn mode (no `--auto-fix`), an organizer
dry-run exit code of 2 is NOT propagated verbatim: the hook exits 1. -/
theorem c2_counterexample :
    (⟨false, true, 0, 2, "", ""⟩ : DocsEnv).autoFix = false ∧
    (⟨false, true, 0, 2, "", ""⟩ : DocsEnv).dryRunExit = 2 ∧
    (organizeScatteredDocs ⟨false, true, 0, 2, "", ""⟩).exitCode = 1 := by
  decide

/-- C2 amended: the organizer exit code is propagated verbatim only in
`--auto-fix` mode; in warn mode the hook exits 0 when the dry-run exits 0
and otherwise exits 1, collapsing every non-zero organizer code to 1; in
both modes the hook exits 0 exactly when the organizer exits 0. -/
theorem c2_amended_exit_propagation (env : DocsEnv) :
    (env.autoFix = true → (organizeScatteredDocs env).exitCode = env.autoMoveExit) ∧
    (env.autoFix = false →
      (organizeScatteredDocs env).exitCode = (if env.dryRunExit = 0 then 0 else 1)) ∧
    ((organizeScatteredDocs env).exitCode = 0 ↔
      (if env.autoFix then env.autoMoveExit else env.dryRunExit) = 0) := by
  refine ⟨?_, ?_, ?_⟩
  · intro ha
    simp [organizeScatteredDocs, ha]
  · intro ha
    by_cases hz : env.dryRunExit = 0 <;> simp [organizeScatteredDocs, ha, hz]
  · cases ha : env.autoFix
    · by_cases hz : env.dryRunExit = 0 <;> simp [organizeScatteredDocs, ha, hz]
    · simp [organizeScatteredDocs, ha]

/-- Witness for the amended C2 at a warn-mode run whose dry-run exits 3
and an auto-fix run whose organizer exits 3. -/
theorem c2_amended_witness :
    (organizeScatteredDocs ⟨true, true, 3, 0, "", ""⟩).exitCode =
      (⟨true, true, 3, 0, "", ""⟩ : DocsEnv).autoMoveExit ∧
    (organizeScatteredDocs ⟨false, true, 0, 3, "", ""⟩).exitCode =
      (if (⟨false, true, 0, 3, "", ""⟩ : DocsEnv).dryRunExit = 0 then 0 else 1) ∧
    ((organizeScatteredDocs ⟨false, true, 0, 3, "", ""⟩).exitCode = 0 ↔
      (if (⟨false, true, 0, 3, "", ""⟩ : DocsEnv).autoFix then
        (⟨false, true, 0, 3, "", ""⟩ : DocsEnv).autoMoveExit
      else (⟨false, true, 0, 3, "", ""⟩ : DocsEnv).dryRunExit) = 0) :=
  ⟨(c2_amended_exit_propagation _).1 rfl, (c2_amended_exit_propagation _).2.1 rfl,
   (c2_amended_exit_propagation _).2.2⟩

/-- C4 counterexample: at the concrete warn-mode state where the organizer
dry-run fails with exit 1 and captured stderr `"boom\n"`, the hook never
writes to its own standard error at all — the captured stderr is
discarded, not re-emitted. -/
theorem c4_counterexample :
    (⟨false, true, 0, 1, "out", "boom\n"⟩ : DocsEnv).dryRunStderr = "boom\n" ∧
    (organizeScatteredDocs ⟨false, true, 0, 1, "out", "boom\n"⟩).exitCode = 1 ∧
    ((organizeScatteredDocs ⟨false, true, 0, 1, "out", "boom\n"⟩).output.any
      fun ev => ev.1 = Chan.stderr) = false := by
  decide

/-- C4 amended: of the two capture-mode callers, only the agent-pointer
validator re-emits the collaborator subprocess raw captured stderr on its
own standard error when the collaborator fails; the scattered-docs hook
in warn mode writes exclusively to standard output, echoing the captured
stdout and discarding the captured stderr. -/
theorem c4_amended_stderr_reemission :
    (∀ envP : PointerEnv, (stagedOf envP.stagedLines).any relevantMatch = true →
      envP.generatorExists = true → envP.genExit ≠ 0 →
        (Chan.stderr, envP.genStderr) ∈ (validateAgentPointers envP).output) ∧
    (∀ envD : DocsEnv, envD.autoFix = false → envD.dryRunExit ≠ 0 →
      (Chan.stdout, envD.dryRunStdout ++ "\n") ∈ (organizeScatteredDocs envD).output ∧
      ((organizeScatteredDocs envD).output.all fun ev => ev.1 = Chan.stdout) = true) := by
  constructor
  · intro envP hm hg hz
    simp [validateAgentPointers, hm, hg, hz]
  · intro envD ha hz
    simp [organizeScatteredDocs, ha, hz]

/-- Witness for the amended C4: a failing generator check with staged
`AGENTS.md`, and a failing warn-mode dry-run. -/
theorem c4_amended_witness :
    (Chan.stderr, "gerr\n") ∈
      (validateAgentPointers ⟨["AGENTS.md"], true, 1, "gout\n", "gerr\n", "python3", "gp"⟩).output ∧
    ((Chan.stdout, "a.md should move\n" ++ "\n") ∈
      (organizeScatteredDocs ⟨false, true, 0, 1, "a.md should move\n", "e\n"⟩).output ∧
      ((organizeScatteredDocs ⟨false, true, 0, 1, "a.md should move\n", "e\n"⟩).output.all
        fun ev => ev.1 = Chan.stdout) = true) :=
  ⟨c4_amended_stderr_reemission.1 _ (by decide) rfl (by decide),
   c4_amended_stderr_reemission.2 _ rfl (by decide)⟩

end Hooks
